import Mathlib

/-
  Verification of the LocalLens backend (Express + Mongoose issue-reporting API).

  Shallow embedding of the report data model (backend/models/Report.js), the
  report routes (backend/routes/reports.js), the admin report routes and the
  auth middleware / JWT helpers (backend/middleware/auth.js).

  Conventions of the embedding:
  * user / report object ids are `Nat`;
  * timestamps (`Date.now()`, `new Date()`) are `Nat` instants supplied by the
    caller, strictly increasing across successive calls in a scenario;
  * geographic coordinates are carried as `Int` (no claim under verification
    computes with fractional coordinate values);
  * a Mongoose document save is modelled as a pure function from the persisted
    state and the in-memory (mutated) document to the new persisted state;
    `isModified('status')` is the Mongoose change-tracking fact that the
    in-memory status differs from the persisted one (Mongoose does not mark a
    path modified when it is assigned a value deep-equal to the current one);
  * JSON web tokens are records carrying their payload and the secret they
    were signed with; `jwtVerify` mirrors jsonwebtoken's verify (malformed /
    bad-signature `JsonWebTokenError` before `TokenExpiredError`);
  * JavaScript truthiness on optional strings is modelled explicitly
    (`some ""` is falsy), and `express-validator` `.trim()` sanitizers are
    applied where the source declares them.
-/

namespace LocalLens

/-- Report status enum (Report.js `status` field). -/
inductive Status where
  | pending
  | inProgress
  | resolved
  | rejected
deriving DecidableEq, Repr

/-- Closed category enum from Report.js / reports.js validation. -/
def categories : List String :=
  ["road", "water", "electricity", "cleanliness", "streetlight", "drainage",
   "traffic", "noise", "construction", "safety", "other"]

/-- Priority enum from Report.js / reports.js validation. -/
def priorities : List String := ["low", "medium", "high", "urgent"]

/-- Image subdocument (Report.js `images` entries). -/
structure ImageRef where
  url : String
  publicId : Option String := none
  caption : Option String := none
deriving DecidableEq, Repr

/-- Location subdocument (Report.js `location`). -/
structure Location where
  address : String
  lat : Int
  lng : Int
  city : String
  state : Option String := none
  zipCode : Option String := none
deriving DecidableEq, Repr

/-- Status-history entry (Report.js `statusHistory` entries). -/
structure HistoryEntry where
  status : Status
  changedBy : Option Nat := none
  changedAt : Nat
  comment : Option String := none
deriving DecidableEq, Repr

/-- Admin comment entry (Report.js `adminComments` entries). -/
structure AdminComment where
  comment : String
  commentedBy : Nat
  commentedAt : Nat
deriving DecidableEq, Repr

/-- Upvote entry (Report.js `upvotes` entries). -/
structure Upvote where
  user : Nat
  votedAt : Nat
deriving DecidableEq, Repr

/-- The report document (Report.js schema), with the schema defaults. -/
structure Report where
  title : String
  description : String
  category : String
  status : Status := .pending
  priority : String := "medium"
  location : Location
  images : List ImageRef := []
  reportedBy : Nat
  assignedTo : Option Nat := none
  statusHistory : List HistoryEntry := []
  adminComments : List AdminComment := []
  upvotes : List Upvote := []
  isPublic : Bool := true
  resolvedAt : Option Nat := none
  estimatedResolutionTime : Option Nat := none
  tags : List String := []
deriving DecidableEq, Repr

/-- The user record as consumed by the code under verification: the auth
middleware reads `_id`, `role`, `isActive`, `adminArea`, `name`. Roles are the
strings "user" / "admin" (see requireAdmin and the admin routes). -/
structure User where
  id : Nat
  name : String
  role : String
  isActive : Bool := true
  adminArea : Option String := none
deriving DecidableEq, Repr

/-- Error codes returned by the handlers under verification (the SCREAMING
codes of the uniform error envelope). -/
inductive ErrCode where
  | validationFailed
  | reportNotFound
  | areaAccessDenied
  | accessDenied
  | reportUpdateError
  | invalidAdminUser
  | missingToken
  | invalidToken
  | tokenExpired
  | userNotFound
  | accountDeactivated
deriving DecidableEq, Repr

/-- `String.prototype.trim`: strip leading and trailing whitespace (used for
both the express-validator `.trim()` sanitizers and the Mongoose `trim: true`
setters; defined over the character list so it evaluates by reduction). -/
def jsTrim (s : String) : String :=
  ⟨((s.data.dropWhile Char.isWhitespace).reverse.dropWhile
      Char.isWhitespace).reverse⟩

/-- `String.prototype.toLowerCase`, over the character list. -/
def jsToLower (s : String) : String :=
  ⟨s.data.map Char.toLower⟩

/-! ### Mongoose save pipeline (Report.js pre('save') hook) -/

/-- reportSchema.pre('save') from Report.js: when the status path is modified
on a non-new document, push a bare history entry carrying the new status and
the save instant, and stamp `resolvedAt` whenever the (modified) status is
`resolved`. -/
def preSaveStatusHistory (isNew statusModified : Bool) (now : Nat)
    (r : Report) : Report :=
  if statusModified && !isNew then
    let r :=
      { r with statusHistory :=
          r.statusHistory ++ [{ status := r.status, changedAt := now }] }
    if r.status = .resolved then { r with resolvedAt := some now } else r
  else r

/-- Mongoose change tracking: `isModified('status')` holds on a loaded
document exactly when the in-memory status differs from the persisted one. -/
def statusIsModified (persisted doc : Report) : Bool :=
  decide (doc.status ≠ persisted.status)

/-- `document.save()` on a document loaded from the store: run the pre-save
hook with `isNew = false` and the tracked modification state. -/
def saveExisting (persisted doc : Report) (now : Nat) : Report :=
  preSaveStatusHistory false (statusIsModified persisted doc) now doc

/-- `document.save()` on a freshly constructed document (`isNew = true`): on a
new document every set path counts as modified, but the pre-save hook guards
on `!this.isNew` and so does nothing. -/
def saveNew (doc : Report) (now : Nat) : Report :=
  preSaveStatusHistory true true now doc

/-! ### JWT model (backend/middleware/auth.js) -/

/-- Decoded JWT payload: `generateToken` signs `{ userId }`, while
`generateRefreshToken` signs `{ userId, type: 'refresh' }`. -/
structure JwtPayload where
  userId : Nat
  type : Option String := none
deriving DecidableEq, Repr

/-- A signed token: its payload, the secret it was signed with, and the
observational facts about it at verification time. -/
structure SignedToken where
  payload : JwtPayload
  secret : String
  expired : Bool := false
  wellFormed : Bool := true
deriving DecidableEq, Repr

/-- jsonwebtoken error classes observed by the middleware. -/
inductive JwtError where
  | jsonWebTokenError
  | tokenExpiredError
deriving DecidableEq, Repr

/-- jwt.verify(token, secret): malformed tokens and signature mismatches raise
`JsonWebTokenError`; expired (but well-signed) tokens raise
`TokenExpiredError`; otherwise the decoded payload is returned. -/
def jwtVerify (t : SignedToken) (secret : String) : Except JwtError JwtPayload :=
  if !t.wellFormed then .error .jsonWebTokenError
  else if t.secret ≠ secret then .error .jsonWebTokenError
  else if t.expired then .error .tokenExpiredError
  else .ok t.payload

/-- generateToken(userId): sign `{ userId }` with JWT_SECRET. -/
def generateToken (userId : Nat) (jwtSecret : String) : SignedToken :=
  { payload := { userId }, secret := jwtSecret }

/-- generateRefreshToken(userId): sign `{ userId, type: 'refresh' }` with
`process.env.JWT_REFRESH_SECRET || process.env.JWT_SECRET` (an unset or empty
refresh secret falls back to the access secret). -/
def generateRefreshToken (userId : Nat) (jwtRefreshSecret : Option String)
    (jwtSecret : String) : SignedToken :=
  { payload := { userId, type := some "refresh" },
    secret :=
      match jwtRefreshSecret with
      | some s => if s ≠ "" then s else jwtSecret
      | none => jwtSecret }

/-- Outcome of the authenticateToken middleware. -/
inductive AuthOutcome where
  | ok (u : User)
  | err (e : ErrCode)
deriving DecidableEq, Repr

/-- authenticateToken from auth.js: extract the bearer token, verify it with
JWT_SECRET, load the user by `decoded.userId`, and require an active user.
The decoded payload's `type` field is never consulted. -/
def authenticateToken (bearer : Option SignedToken) (jwtSecret : String)
    (findUser : Nat → Option User) : AuthOutcome :=
  match bearer with
  | none => .err .missingToken
  | some t =>
    match jwtVerify t jwtSecret with
    | .error .jsonWebTokenError => .err .invalidToken
    | .error .tokenExpiredError => .err .tokenExpired
    | .ok decoded =>
      match findUser decoded.userId with
      | none => .err .userNotFound
      | some u => if !u.isActive then .err .accountDeactivated else .ok u

/-- Outcome of a middleware that may either pass control on (with an optional
attached `req.user`) or terminate the request with an error response. -/
inductive MwOutcome where
  | proceed (u : Option User)
  | reject (e : ErrCode)
deriving DecidableEq, Repr

/-- optionalAuth from auth.js: if a token is present and verifies, and the
user exists and is active, attach the user; on any verification failure the
catch block just calls next() with no user attached. -/
def optionalAuth (bearer : Option SignedToken) (jwtSecret : String)
    (findUser : Nat → Option User) : MwOutcome :=
  match bearer with
  | none => .proceed none
  | some t =>
    match jwtVerify t jwtSecret with
    | .error _ => .proceed none
    | .ok decoded =>
      match findUser decoded.userId with
      | none => .proceed none
      | some u => if u.isActive then .proceed (some u) else .proceed none

/-! ### Authorization policy (Report.js canEdit, reports.js view check) -/

/-- reportSchema.methods.canEdit from Report.js: admins and the reporting
user may edit a report. -/
def canEdit (r : Report) (userId : Nat) (userRole : String) : Bool :=
  userRole == "admin" || r.reportedBy == userId

/-- The access check inlined in GET /api/reports/:id (reports.js): the
request is denied when the report is private and the requester is neither the
owner nor an admin. -/
def viewDenied (user : Option User) (r : Report) : Bool :=
  !r.isPublic &&
    (match user with
     | none => true
     | some u => decide (u.id ≠ r.reportedBy) && decide (u.role ≠ "admin"))

/-- GET /api/reports/:id (reports.js): optional auth result, report lookup,
then the visibility check. -/
def getReportById (mw : MwOutcome) (findReport : Option Report) :
    Except ErrCode Report :=
  match mw with
  | .reject e => .error e
  | .proceed user =>
    match findReport with
    | none => .error .reportNotFound
    | some r => if viewDenied user r then .error .accessDenied else .ok r

/-! ### Report creation (POST /api/reports) -/

/-- The request body of POST /api/reports, after JSON parsing. Optional
fields are absent (`none`) or present. -/
structure CreateBody where
  title : String
  description : String
  category : String
  location : Location
  images : Option (List ImageRef) := none
  priority : Option String := none
  tags : Option (List String) := none
  isPublic : Option Bool := none
deriving DecidableEq, Repr

/-- The `.trim()` sanitizers of createReportValidation (reports.js): title,
description, location.address and location.city are trimmed in the body. -/
def sanitizeCreateBody (b : CreateBody) : CreateBody :=
  { b with
    title := (jsTrim b.title)
    description := (jsTrim b.description)
    location :=
      { b.location with
        address := (jsTrim b.location.address)
        city := (jsTrim b.location.city) } }

/-- createReportValidation (reports.js lines 15-45): title 5-100 chars,
description 20-1000 chars, category in the closed enum, nonempty address and
city, coordinates in range, priority (when present) in the enum. Lengths are
checked on the trimmed values (the sanitizer runs in the chain). -/
def createBodyValid (b : CreateBody) : Bool :=
  decide (5 ≤ (jsTrim b.title).length ∧ (jsTrim b.title).length ≤ 100) &&
  decide (20 ≤ (jsTrim b.description).length ∧ (jsTrim b.description).length ≤ 1000) &&
  categories.contains b.category &&
  decide ((jsTrim b.location.address) ≠ "") &&
  decide (-90 ≤ b.location.lat ∧ b.location.lat ≤ 90) &&
  decide (-180 ≤ b.location.lng ∧ b.location.lng ≤ 180) &&
  decide ((jsTrim b.location.city) ≠ "") &&
  (match b.priority with
   | some p => priorities.contains p
   | none => true)

/-- The schema trim setters on the location subdocument (address, city, state,
zipCode are declared `trim: true` in Report.js). -/
def trimLocation (l : Location) : Location :=
  { l with
    address := (jsTrim l.address)
    city := (jsTrim l.city)
    state := l.state.map jsTrim
    zipCode := l.zipCode.map jsTrim }

/-- POST /api/reports (reports.js lines 61-116): reject on validation errors,
otherwise build the document (`images || []`, `priority || 'medium'`,
`tags || []`, `isPublic !== false`, reportedBy from the authenticated user,
schema defaults for everything else) and save it as a new document. -/
def createReport (userId : Nat) (body : CreateBody) (now : Nat) :
    Except ErrCode Report :=
  if !createBodyValid body then .error .validationFailed
  else
    let b := sanitizeCreateBody body
    let doc : Report :=
      { title := b.title
        description := b.description
        category := b.category
        location := trimLocation b.location
        images := b.images.getD []
        priority :=
          match b.priority with
          | some p => if p ≠ "" then p else "medium"
          | none => "medium"
        tags := b.tags.getD []
        isPublic := decide (b.isPublic ≠ some false)
        reportedBy := userId }
    .ok (saveNew doc now)

/-! ### Owner/admin content update (PUT /api/reports/:id) -/

/-- The request body of PUT /api/reports/:id: every field optional. -/
structure UpdateBody where
  title : Option String := none
  description : Option String := none
  category : Option String := none
  location : Option Location := none
  images : Option (List ImageRef) := none
  priority : Option String := none
  tags : Option (List String) := none
  isPublic : Option Bool := none
deriving DecidableEq, Repr

/-- JavaScript truthiness on an optional string: the empty string is falsy. -/
def truthyStr : Option String → Option String
  | some s => if s = "" then none else some s
  | none => none

/-- The `updateData` object built by PUT /api/reports/:id: a field enters the
update exactly when the body value is truthy (strings must be nonempty;
arrays and objects are always truthy; isPublic must be an actual boolean). -/
def updateData (u : UpdateBody) : UpdateBody :=
  { title := truthyStr u.title
    description := truthyStr u.description
    category := truthyStr u.category
    location := u.location
    images := u.images
    priority := truthyStr u.priority
    tags := u.tags
    isPublic := u.isPublic }

/-- Schema validation of a location subdocument (required address/city,
coordinate ranges), as run by `runValidators: true`. -/
def locationValid (l : Location) : Bool :=
  decide ((jsTrim l.address) ≠ "") &&
  decide (-90 ≤ l.lat ∧ l.lat ≤ 90) &&
  decide (-180 ≤ l.lng ∧ l.lng ≤ 180) &&
  decide ((jsTrim l.city) ≠ "")

/-- The schema validators run by `findByIdAndUpdate(..., { runValidators:
true })` on the paths present in `updateData`, after the schema trim setters:
title is required and capped at 100 chars (the schema declares no minimum
length for the title), description must be 20-1000 chars, category and
priority must belong to their enums, a replaced location must satisfy its
required fields and coordinate ranges. -/
def mongooseUpdateValid (u : UpdateBody) : Bool :=
  let d := updateData u
  (match d.title with
   | some t => decide ((jsTrim t) ≠ "" ∧ (jsTrim t).length ≤ 100)
   | none => true) &&
  (match d.description with
   | some s => decide ((jsTrim s) ≠ "" ∧ 20 ≤ (jsTrim s).length ∧ (jsTrim s).length ≤ 1000)
   | none => true) &&
  (match d.category with
   | some c => categories.contains c
   | none => true) &&
  (match d.location with
   | some l => locationValid l
   | none => true) &&
  (match d.priority with
   | some p => priorities.contains p
   | none => true)

/-- The `$set` applied by findByIdAndUpdate for PUT /api/reports/:id: only
the fields present in `updateData` are replaced (with the schema trim setters
applied); no pre('save') hook runs on a query update. -/
def applyUpdate (r : Report) (u : UpdateBody) : Report :=
  let d := updateData u
  { r with
    title := match d.title with | some t => (jsTrim t) | none => r.title
    description :=
      match d.description with | some s => (jsTrim s) | none => r.description
    category := d.category.getD r.category
    location := match d.location with | some l => trimLocation l | none => r.location
    images := d.images.getD r.images
    priority := d.priority.getD r.priority
    tags := d.tags.getD r.tags
    isPublic := d.isPublic.getD r.isPublic }

/-- PUT /api/reports/:id (reports.js lines 354-404): 404 when the report is
missing, 403 unless canEdit, then findByIdAndUpdate with runValidators; a
validator failure throws and surfaces as the catch-all 500
REPORT_UPDATE_ERROR with the stored report untouched. -/
def updateReportHandler (user : User) (findReport : Option Report)
    (u : UpdateBody) : Except ErrCode Report :=
  match findReport with
  | none => .error .reportNotFound
  | some report =>
    if !canEdit report user.id user.role then .error .accessDenied
    else if !mongooseUpdateValid u then .error .reportUpdateError
    else .ok (applyUpdate report u)

/-! ### Upvote toggle (POST /api/reports/:id/upvote) -/

/-- reportSchema.methods.addUpvote from Report.js: push a vote for the user
unless one exists, then save (the save path is the standard document save,
whose pre-save hook is a no-op here since the status is untouched). -/
def addUpvote (persisted : Report) (userId now : Nat) : Report :=
  match persisted.upvotes.find? (fun v => v.user == userId) with
  | some _ => persisted
  | none =>
    saveExisting persisted
      { persisted with
        upvotes := persisted.upvotes ++ [{ user := userId, votedAt := now }] }
      now

/-- reportSchema.methods.removeUpvote from Report.js: drop every vote by the
user, then save. -/
def removeUpvote (persisted : Report) (userId now : Nat) : Report :=
  saveExisting persisted
    { persisted with
      upvotes := persisted.upvotes.filter (fun v => v.user != userId) }
    now

/-- POST /api/reports/:id/upvote (reports.js lines 409-449): remove the vote
when the user already voted, add it otherwise; the response carries the
`upvoted` flag and the post-mutation upvote count. -/
def toggleUpvote (user : User) (findReport : Option Report) (now : Nat) :
    Except ErrCode (Report × Bool × Nat) :=
  match findReport with
  | none => .error .reportNotFound
  | some report =>
    let hasUpvoted := report.upvotes.any (fun v => v.user == user.id)
    if hasUpvoted then
      let r := removeUpvote report user.id now
      .ok (r, false, r.upvotes.length)
    else
      let r := addUpvote report user.id now
      .ok (r, true, r.upvotes.length)

/-! ### Admin report routes (routes/admin.js) -/

/-- Substring occurrence on character lists: does `needle` occur contiguously
inside the second list? -/
def subListSearch (needle : List Char) : List Char → Bool
  | [] => needle.isEmpty
  | c :: rest => needle.isPrefixOf (c :: rest) || subListSearch needle rest

/-- JavaScript `hay.toLowerCase().includes(needle.toLowerCase())`, modelled on
character lists. -/
def lowerIncludes (hay needle : String) : Bool :=
  subListSearch (jsToLower needle).toList (jsToLower hay).toList

/-- The area gate of PUT /api/admin/reports/:id/status: when the admin has a
(truthy) adminArea and the report's city does not contain it
case-insensitively, the handler answers 403 AREA_ACCESS_DENIED. -/
def areaBlocked (admin : User) (r : Report) : Bool :=
  match admin.adminArea with
  | some area => area ≠ "" && !lowerIncludes r.location.city area
  | none => false

/-- Request body of PUT /api/admin/reports/:id/status. The status field has
already passed the `isIn` enum validation, hence its type. -/
structure StatusUpdateBody where
  status : Status
  comment : Option String := none
  estimatedResolutionTime : Option Nat := none
deriving DecidableEq, Repr

/-- updateStatusValidation (admin routes): an optional comment is trimmed and
capped at 500 chars; estimatedResolutionTime must be an ISO-8601 date (its
typed representation here). -/
def statusBodyValid (b : StatusUpdateBody) : Bool :=
  match b.comment with
  | some c => decide ((jsTrim c).length ≤ 500)
  | none => true

/-- PUT /api/admin/reports/:id/status: validation, report lookup, the
area-based access re-check, then: set the status, optionally set the
estimated resolution time, push a rich history entry (actor + comment), push
an admin comment when one was given, and save the document (which fires the
pre-save hook). Returns the saved report and the `statusChanged` flag. -/
def updateReportStatus (admin : User) (findReport : Option Report)
    (b : StatusUpdateBody) (now : Nat) : Except ErrCode (Report × Bool) :=
  if !statusBodyValid b then .error .validationFailed
  else
    match findReport with
    | none => .error .reportNotFound
    | some report =>
      if areaBlocked admin report then .error .areaAccessDenied
      else
        let comment := b.comment.map jsTrim
        let oldStatus := report.status
        let r1 := { report with status := b.status }
        let r2 :=
          match b.estimatedResolutionTime with
          | some t => { r1 with estimatedResolutionTime := some t }
          | none => r1
        let r3 :=
          { r2 with statusHistory :=
              r2.statusHistory ++
                [{ status := b.status, changedBy := some admin.id,
                   changedAt := now, comment := comment }] }
        let r4 :=
          match comment with
          | some c =>
            if c ≠ "" then
              { r3 with adminComments :=
                  r3.adminComments ++
                    [{ comment := c, commentedBy := admin.id,
                       commentedAt := now }] }
            else r3
          | none => r3
        .ok (saveExisting report r4 now, decide (oldStatus ≠ b.status))

/-- Request body of PUT /api/admin/reports/:id/assign. -/
structure AssignBody where
  assignedTo : Nat
  comment : Option String := none
deriving DecidableEq, Repr

/-- assignReportValidation: assignedTo must be a Mongo id (guaranteed by its
typed representation); an optional comment is trimmed and capped at 500. -/
def assignBodyValid (b : AssignBody) : Bool :=
  match b.comment with
  | some c => decide ((jsTrim c).length ≤ 500)
  | none => true

/-- PUT /api/admin/reports/:id/assign: no area re-check. The assignee must
exist and be an admin; the handler sets assignedTo, pushes an admin comment
(the given one if truthy, else a synthesized message), auto-transitions a
pending report to in_progress with a synthetic history entry, and saves (the
pre-save hook fires on that save). -/
def assignReport (admin : User) (findReport : Option Report) (b : AssignBody)
    (findAssignee : Option User) (now : Nat) : Except ErrCode Report :=
  if !assignBodyValid b then .error .validationFailed
  else
    match findReport with
    | none => .error .reportNotFound
    | some report =>
      match findAssignee with
      | none => .error .invalidAdminUser
      | some assignee =>
        if assignee.role ≠ "admin" then .error .invalidAdminUser
        else
          let r1 := { report with assignedTo := some b.assignedTo }
          let assignmentComment :=
            match b.comment.map jsTrim with
            | some c =>
              if c ≠ "" then c
              else "Report assigned to " ++ assignee.name ++ " by " ++ admin.name
            | none =>
              "Report assigned to " ++ assignee.name ++ " by " ++ admin.name
          let r2 :=
            { r1 with adminComments :=
                r1.adminComments ++
                  [{ comment := assignmentComment, commentedBy := admin.id,
                     commentedAt := now }] }
          let r3 :=
            if r2.status = .pending then
              { r2 with
                status := .inProgress
                statusHistory :=
                  r2.statusHistory ++
                    [{ status := .inProgress, changedBy := some admin.id,
                       changedAt := now,
                       comment := some "Status updated due to assignment" }] }
            else r2
          .ok (saveExisting report r3 now)

/-- POST /api/admin/reports/:id/comment: no area re-check. The comment is
trimmed and must be 1-500 chars; the handler appends it and saves, answering
with the appended entry. -/
def addAdminComment (admin : User) (findReport : Option Report)
    (comment : String) (now : Nat) : Except ErrCode (Report × AdminComment) :=
  if !(decide (1 ≤ (jsTrim comment).length) && decide ((jsTrim comment).length ≤ 500))
  then .error .validationFailed
  else
    match findReport with
    | none => .error .reportNotFound
    | some report =>
      let entry : AdminComment :=
        { comment := (jsTrim comment), commentedBy := admin.id, commentedAt := now }
      let r :=
        saveExisting report
          { report with adminComments := report.adminComments ++ [entry] } now
      .ok (r, entry)

/-! ### Concrete fixtures for witnesses and counterexamples -/

/-- A concrete location fixture. -/
def demoLocation : Location :=
  { address := "12 Elm St", lat := 40, lng := -75, city := "Springfield" }

/-- A concrete stored report owned by user 1, still in its created state. -/
def demoReport : Report :=
  { title := "Broken streetlight on Elm St"
    description := "The streetlight at the corner is broken."
    category := "streetlight"
    location := demoLocation
    reportedBy := 1 }

/-- A concrete administrator without an assigned area. -/
def demoAdmin : User := { id := 9, name := "Ada", role := "admin" }

/-- A concrete valid creation payload. -/
def demoCreateBody : CreateBody :=
  { title := "Broken streetlight on Elm St"
    description := "The streetlight at the corner is broken."
    category := "streetlight"
    location := demoLocation }

/-- Scenario helper: run the admin status endpoint and keep the stored report
(unchanged when the call errors, since an error response performs no save). -/
def statusCallReport (admin : User) (r : Report) (s : Status) (now : Nat) :
    Report :=
  match updateReportStatus admin (some r) { status := s } now with
  | .ok (r', _) => r'
  | .error _ => r

/-! ### Characterization of the admin status endpoint -/

/-- Successful status updates: the saved report's history is the old history
plus the handler's rich entry, plus the pre-save hook's bare entry exactly
when the status actually changed; `resolvedAt` is re-stamped exactly when the
status changed to resolved; the status is the requested one. -/
theorem statusUpdate_ok_spec (admin : User) (report : Report)
    (b : StatusUpdateBody) (now : Nat) (r' : Report) (changed : Bool)
    (h : updateReportStatus admin (some report) b now = .ok (r', changed)) :
    r'.statusHistory =
      (report.statusHistory ++
        [{ status := b.status, changedBy := some admin.id, changedAt := now,
           comment := b.comment.map jsTrim }]) ++
        (if b.status = report.status then []
         else [{ status := b.status, changedAt := now }]) ∧
    r'.resolvedAt =
      (if b.status = .resolved ∧ b.status ≠ report.status then some now
       else report.resolvedAt) ∧
    r'.status = b.status := by
  simp only [updateReportStatus] at h
  split at h
  · exact Except.noConfusion h
  · split at h
    · exact Except.noConfusion h
    · simp only [Except.ok.injEq, Prod.mk.injEq] at h
      obtain ⟨h1, -⟩ := h
      subst h1
      simp only [saveExisting, preSaveStatusHistory, statusIsModified]
      rcases hE : b.estimatedResolutionTime with - | t <;>
        rcases hC : b.comment.map jsTrim with - | c <;>
        by_cases hs : b.status = report.status <;>
        by_cases hr : b.status = Status.resolved <;>
        simp [hE, hC, hs, hr] <;>
        split <;> simp_all

/-- C1 (as stated, refuted): a status-update call that actually changes the
status appends two history entries, not one — the handler's rich entry plus
the pre-save hook's bare entry. Concretely: the demo report starts with an
empty history, and one call moving it from pending to resolved leaves two
entries. -/
theorem claim1_counterexample :
    demoReport.statusHistory.length = 0 ∧
    (statusCallReport demoAdmin demoReport .resolved 7).statusHistory.length
      = 2 := by
  constructor <;> rfl

/-- C1 (amended): every successful status-update call appends exactly one
history entry when the requested status equals the stored one, and exactly
two entries (the handler's and the pre-save hook's) when it differs. -/
theorem claim1_amended_history_growth (admin : User) (report : Report)
    (b : StatusUpdateBody) (now : Nat) (r' : Report) (changed : Bool)
    (h : updateReportStatus admin (some report) b now = .ok (r', changed)) :
    r'.statusHistory.length =
      report.statusHistory.length +
        (if b.status = report.status then 1 else 2) := by
  obtain ⟨h1, -, -⟩ := statusUpdate_ok_spec admin report b now r' changed h
  rw [h1]
  by_cases hs : b.status = report.status <;> simp [hs]

/-- C1 witness: the amended growth law applied to the concrete demo call. -/
theorem claim1_witness :
    (statusCallReport demoAdmin demoReport .resolved 7).statusHistory.length =
      demoReport.statusHistory.length +
        (if Status.resolved = demoReport.status then 1 else 2) :=
  claim1_amended_history_growth demoAdmin demoReport { status := .resolved } 7
    (statusCallReport demoAdmin demoReport .resolved 7)
    true rfl

/-- C2 (as stated, refuted): a successfully created report has status
pending but an empty status history — the pre-save hook skips new documents
(`!this.isNew`) and nothing else seeds an initial entry. -/
theorem claim2_counterexample :
    (createReport 1 demoCreateBody 5).map
        (fun r => (r.status, r.statusHistory.length)) =
      .ok (Status.pending, 0) := by
  rfl

/-- C2 (amended): for every valid creation payload the created report's
status is pending and its status history is empty (no initial entry is
seeded). -/
theorem claim2_amended_created_state (userId : Nat) (b : CreateBody)
    (now : Nat) (r : Report) (h : createReport userId b now = .ok r) :
    r.status = .pending ∧ r.statusHistory = [] := by
  simp only [createReport] at h
  split at h
  · exact Except.noConfusion h
  · simp only [Except.ok.injEq] at h
    subst h
    simp [saveNew, preSaveStatusHistory]

/-- The report stored by the concrete demo creation call. -/
def demoCreatedReport : Report :=
  match createReport 1 demoCreateBody 5 with
  | .ok r => r
  | .error _ => demoReport

/-- C2 witness: the amended creation law applied to the concrete payload. -/
theorem claim2_witness :
    demoCreatedReport.status = .pending ∧
      demoCreatedReport.statusHistory = [] :=
  claim2_amended_created_state 1 demoCreateBody 5 demoCreatedReport rfl

/-- C3 (as stated, refuted): `resolvedAt` is not write-once. The demo report
is resolved at instant 10 (resolvedAt = 10), reopened at 20, and resolved
again at 30 — after which resolvedAt has been reassigned to 30. -/
theorem claim3_counterexample :
    (statusCallReport demoAdmin demoReport .resolved 10).resolvedAt
        = some 10 ∧
    (statusCallReport demoAdmin
        (statusCallReport demoAdmin
          (statusCallReport demoAdmin demoReport .resolved 10)
          .pending 20)
        .resolved 30).resolvedAt = some 30 := by
  constructor <;> rfl

/-- C3 (amended): a successful status-update call stamps `resolvedAt` with
the call's instant exactly when it changes the status to resolved (so every
re-entry into resolved from a different status reassigns it), and leaves it
untouched otherwise — in particular a resolved-to-resolved call does not
re-stamp. -/
theorem claim3_amended_resolvedAt (admin : User) (report : Report)
    (b : StatusUpdateBody) (now : Nat) (r' : Report) (changed : Bool)
    (h : updateReportStatus admin (some report) b now = .ok (r', changed)) :
    r'.resolvedAt =
      (if b.status = .resolved ∧ b.status ≠ report.status then some now
       else report.resolvedAt) :=
  (statusUpdate_ok_spec admin report b now r' changed h).2.1

/-- C3 witness: the amended stamping law applied to the concrete demo call. -/
theorem claim3_witness :
    (statusCallReport demoAdmin demoReport .resolved 10).resolvedAt =
      (if Status.resolved = .resolved ∧ Status.resolved ≠ demoReport.status
       then some 10 else demoReport.resolvedAt) :=
  claim3_amended_resolvedAt demoAdmin demoReport { status := .resolved } 10
    (statusCallReport demoAdmin demoReport .resolved 10) true rfl

/-- C6 (confirmed): canEdit holds exactly for admins and the owner, and a
single-report view is permitted exactly when the report is public or canEdit
holds for the requester. -/
theorem claim6_canManage_canView (u : User) (r : Report) :
    (canEdit r u.id u.role = true ↔
      (u.role = "admin" ∨ u.id = r.reportedBy)) ∧
    (viewDenied (some u) r = false ↔
      (r.isPublic = true ∨ canEdit r u.id u.role = true)) := by
  constructor
  · simp only [canEdit, Bool.or_eq_true, beq_iff_eq]
    exact or_congr Iff.rfl eq_comm
  · simp only [viewDenied, canEdit, Bool.and_eq_true, Bool.not_eq_true',
      Bool.or_eq_true, beq_iff_eq, decide_eq_true_eq]
    cases hp : r.isPublic <;> simp
    tauto

/-- A concrete active citizen user. -/
def demoActiveUser : User := { id := 1, name := "Bo", role := "user" }

/-- A concrete user directory holding only the active user 1. -/
def demoFindUser : Nat → Option User :=
  fun i => if i = 1 then some demoActiveUser else none

/-- A concrete well-signed but expired token for user 1. -/
def demoExpiredToken : SignedToken :=
  { payload := { userId := 1 }, secret := "topsecret", expired := true }

/-- C4 (as stated, refuted): when no separate JWT_REFRESH_SECRET is
configured, `generateRefreshToken` signs with JWT_SECRET, and
`authenticateToken` — which never inspects the payload's type marker —
accepts the refresh token as a bearer token and authenticates the user. -/
theorem claim4_counterexample :
    authenticateToken (some (generateRefreshToken 1 none "topsecret"))
        "topsecret" demoFindUser = .ok demoActiveUser := by
  rfl

/-- C4 (amended): a refresh token always carries the type marker, but bearer
authentication rejects it only when its signing secret (JWT_REFRESH_SECRET,
falling back to JWT_SECRET) differs from JWT_SECRET; when the secrets
coincide the token authenticates exactly like an access token for its user,
the type marker being ignored. -/
theorem claim4_amended_refresh_token (uid : Nat) (rs : Option String)
    (s : String) (findUser : Nat → Option User) :
    (generateRefreshToken uid rs s).payload.type = some "refresh" ∧
    authenticateToken (some (generateRefreshToken uid rs s)) s findUser =
      (if (generateRefreshToken uid rs s).secret ≠ s then .err .invalidToken
       else
         match findUser uid with
         | none => .err .userNotFound
         | some u =>
           if !u.isActive then .err .accountDeactivated else .ok u) := by
  refine ⟨rfl, ?_⟩
  simp only [authenticateToken, generateRefreshToken, jwtVerify]
  rcases rs with - | r
  · simp
  · by_cases hr : r = "" <;> by_cases hrs : r = s <;> simp [hr, hrs]

/-- C10 (confirmed): optionalAuth never terminates the request with an
error: with no token, or with a token that fails verification (malformed,
bad signature, or expired), the request proceeds with no user attached — and
the public report endpoints behave exactly as for an unauthenticated caller
— while a verified token whose user exists and is active attaches that
user. -/
theorem claim10_optionalAuth_never_fails (tok : Option SignedToken)
    (s : String) (f : Nat → Option User) :
    (∀ e, optionalAuth tok s f ≠ .reject e) ∧
    (tok = none → optionalAuth tok s f = .proceed none) ∧
    (∀ t err, tok = some t → jwtVerify t s = .error err →
       optionalAuth tok s f = .proceed none ∧
       ∀ findR, getReportById (optionalAuth tok s f) findR =
         getReportById (.proceed none) findR) ∧
    (∀ t p u, tok = some t → jwtVerify t s = .ok p → f p.userId = some u →
       u.isActive = true → optionalAuth tok s f = .proceed (some u)) := by
  rcases tok with - | t
  · simp [optionalAuth]
  · refine ⟨?_, by simp, ?_, ?_⟩
    · intro e
      simp only [optionalAuth]
      rcases hv : jwtVerify t s with err | p
      · simp
      · rcases hf : f p.userId with - | u
        · simp [hf]
        · by_cases hu : u.isActive <;> simp [hf, hu]
    · rintro t' err ht hv
      obtain rfl : t = t' := by injection ht
      refine ⟨by simp [optionalAuth, hv], ?_⟩
      intro findR
      simp [optionalAuth, hv]
    · rintro t' p u ht hv hf hu
      obtain rfl : t = t' := by injection ht
      simp [optionalAuth, hv, hf, hu]

/-- C10 witness: the law applied to a concrete expired token (processed as
unauthenticated) and to a concrete valid token for the active user 1 (user
attached). -/
theorem claim10_witness :
    optionalAuth (some demoExpiredToken) "topsecret" demoFindUser
        = .proceed none ∧
    optionalAuth (some (generateToken 1 "topsecret")) "topsecret" demoFindUser
        = .proceed (some demoActiveUser) :=
  ⟨((claim10_optionalAuth_never_fails (some demoExpiredToken) "topsecret"
        demoFindUser).2.2.1 demoExpiredToken .tokenExpiredError rfl rfl).1,
   (claim10_optionalAuth_never_fails (some (generateToken 1 "topsecret"))
        "topsecret" demoFindUser).2.2.2 (generateToken 1 "topsecret")
     { userId := 1 } demoActiveUser rfl rfl rfl rfl⟩

/-- C9 (confirmed): a successful owner/admin content update leaves status,
statusHistory, adminComments, upvotes, reportedBy and resolvedAt untouched —
the update object only ever contains the eight content fields, and a query
update runs no pre('save') hook. -/
theorem claim9_update_frame (user : User) (report : Report) (u : UpdateBody)
    (r' : Report) (h : updateReportHandler user (some report) u = .ok r') :
    r'.status = report.status ∧
    r'.statusHistory = report.statusHistory ∧
    r'.adminComments = report.adminComments ∧
    r'.upvotes = report.upvotes ∧
    r'.reportedBy = report.reportedBy ∧
    r'.resolvedAt = report.resolvedAt := by
  simp only [updateReportHandler] at h
  split at h
  · exact Except.noConfusion h
  · split at h
    · exact Except.noConfusion h
    · simp only [Except.ok.injEq] at h
      subst h
      simp [applyUpdate]

/-- A concrete truthy, schema-valid content patch. -/
def demoPatch : UpdateBody := { title := some "Shattered streetlight on Elm St" }

/-- The report stored by the concrete demo update call. -/
def demoUpdatedReport : Report :=
  match updateReportHandler demoActiveUser (some demoReport) demoPatch with
  | .ok r => r
  | .error _ => demoReport

/-- C9 witness: the frame law applied to the concrete demo update. -/
theorem claim9_witness :
    demoUpdatedReport.status = demoReport.status ∧
    demoUpdatedReport.statusHistory = demoReport.statusHistory ∧
    demoUpdatedReport.adminComments = demoReport.adminComments ∧
    demoUpdatedReport.upvotes = demoReport.upvotes ∧
    demoUpdatedReport.reportedBy = demoReport.reportedBy ∧
    demoUpdatedReport.resolvedAt = demoReport.resolvedAt :=
  claim9_update_frame demoActiveUser demoReport demoPatch demoUpdatedReport rfl

/-- A patch whose title is a truthy 3-character string. -/
def demoShortTitlePatch : UpdateBody := { title := some "abc" }

/-- C5 (as stated, refuted): the owner/admin update path enforces no lower
bound on the title (the route has no express-validator rules and the schema
declares no title minlength), so patching the demo report's title to "abc"
succeeds and stores a 3-character title. -/
theorem claim5_counterexample :
    (updateReportHandler demoActiveUser (some demoReport)
        demoShortTitlePatch).map (fun r => r.title) = .ok "abc" ∧
    ("abc" : String).length < 5 := by
  exact ⟨rfl, by decide⟩

/-- C5 (amended): reports persisted by the create operation satisfy the full
bounds (title 5-100 chars, description 20-1000 chars); the update operation
enforces only the schema bounds on the fields it patches — a patched title
need only be nonempty after trimming and at most 100 chars, so titles
shorter than 5 characters can be persisted — and a patch violating the
schema bounds is rejected (surfacing as the 500 REPORT_UPDATE_ERROR), no
updated document being produced. -/
theorem claim5_amended_length_bounds :
    (∀ userId b now r, createReport userId b now = .ok r →
       5 ≤ r.title.length ∧ r.title.length ≤ 100 ∧
       20 ≤ r.description.length ∧ r.description.length ≤ 1000) ∧
    (∀ user report u r',
       updateReportHandler user (some report) u = .ok r' →
       r'.title = report.title ∨
         (r'.title ≠ "" ∧ r'.title.length ≤ 100)) ∧
    (∀ user report u,
       canEdit report user.id user.role = true →
       mongooseUpdateValid u = false →
       updateReportHandler user (some report) u =
         .error .reportUpdateError) := by
  refine ⟨?_, ?_, ?_⟩
  · intro userId b now r h
    simp only [createReport] at h
    split at h
    · exact Except.noConfusion h
    · next hv =>
      rw [Bool.not_eq_true', Bool.not_eq_false] at hv
      simp only [createBodyValid, Bool.and_eq_true, decide_eq_true_eq] at hv
      simp only [Except.ok.injEq] at h
      subst h
      simp only [saveNew, preSaveStatusHistory, sanitizeCreateBody]
      norm_num
      exact ⟨hv.1.1.1.1.1.1.1.1, hv.1.1.1.1.1.1.1.2,
             hv.1.1.1.1.1.1.2.1, hv.1.1.1.1.1.1.2.2⟩
  · intro user report u r' h
    simp only [updateReportHandler] at h
    split at h
    · exact Except.noConfusion h
    · split at h
      · exact Except.noConfusion h
      · next hv =>
        rw [Bool.not_eq_true', Bool.not_eq_false] at hv
        simp only [mongooseUpdateValid, Bool.and_eq_true] at hv
        simp only [Except.ok.injEq] at h
        subst h
        simp only [applyUpdate, updateData]
        rcases ht : truthyStr u.title with - | t
        · left
          simp [ht]
        · right
          have hvt := hv.1.1.1.1
          have he : (updateData u).title = truthyStr u.title := rfl
          rw [he, ht] at hvt
          simp only [decide_eq_true_eq] at hvt
          simp [ht]
          exact ⟨hvt.1, hvt.2⟩
  · intro user report u hc hv
    simp [updateReportHandler, hc, hv]

/-- A patch whose title exceeds the schema's 100-character cap. -/
def demoOverlongTitlePatch : UpdateBody :=
  { title := some ⟨List.replicate 101 'a'⟩ }

/-- C5 witness: the amended law applied to the concrete creation payload,
the concrete short-title patch, and the concrete overlong-title patch. -/
theorem claim5_witness :
    (5 ≤ demoCreatedReport.title.length ∧
       demoCreatedReport.title.length ≤ 100 ∧
       20 ≤ demoCreatedReport.description.length ∧
       demoCreatedReport.description.length ≤ 1000) ∧
    (demoUpdatedReport.title = demoReport.title ∨
       (demoUpdatedReport.title ≠ "" ∧
        demoUpdatedReport.title.length ≤ 100)) ∧
    updateReportHandler demoActiveUser (some demoReport)
        demoOverlongTitlePatch = .error .reportUpdateError :=
  ⟨claim5_amended_length_bounds.1 1 demoCreateBody 5 demoCreatedReport rfl,
   claim5_amended_length_bounds.2.1 demoActiveUser demoReport demoPatch
     demoUpdatedReport rfl,
   claim5_amended_length_bounds.2.2 demoActiveUser demoReport
     demoOverlongTitlePatch (by decide) (by decide)⟩

/-- C8 (confirmed): for an admin with a (nonempty) assigned area and a
report whose city does not contain that area case-insensitively, the status
update fails with AREA_ACCESS_DENIED before any mutation (an error response
performs no save, so the stored report is unchanged), while the assign and
comment handlers perform no area re-check and succeed on the very same
report given otherwise-valid inputs. -/
theorem claim8_area_check_asymmetry (admin : User) (report : Report)
    (area : String) (b : StatusUpdateBody) (ab : AssignBody)
    (assignee : User) (c : String) (n1 n2 n3 : Nat)
    (hA : admin.adminArea = some area) (hne : area ≠ "")
    (hcity : lowerIncludes report.location.city area = false)
    (hb : statusBodyValid b = true)
    (hab : assignBodyValid ab = true)
    (hrole : assignee.role = "admin")
    (hc : 1 ≤ (jsTrim c).length ∧ (jsTrim c).length ≤ 500) :
    updateReportStatus admin (some report) b n1 = .error .areaAccessDenied ∧
    (∃ r', assignReport admin (some report) ab (some assignee) n2 = .ok r') ∧
    (∃ r' entry, addAdminComment admin (some report) c n3 =
       .ok (r', entry)) := by
  refine ⟨?_, ?_, ?_⟩
  · have hblocked : areaBlocked admin report = true := by
      simp [areaBlocked, hA, hne, hcity]
    simp [updateReportStatus, hb, hblocked]
  · simp only [assignReport, hab, Bool.not_true, Bool.false_eq_true,
      if_false, hrole, ne_eq, not_true_eq_false, ite_false]
    exact ⟨_, rfl⟩
  · simp [addAdminComment, hc.1, hc.2]

/-- A concrete admin scoped to the area "Shelbyville". -/
def demoAreaAdmin : User :=
  { id := 4, name := "Lin", role := "admin", adminArea := some "Shelbyville" }

/-- C8 witness: the asymmetry at a concrete out-of-area report (city
"Springfield", admin area "Shelbyville") with concrete valid bodies. -/
theorem claim8_witness :
    updateReportStatus demoAreaAdmin (some demoReport)
        { status := .resolved } 21 = .error .areaAccessDenied ∧
    (∃ r', assignReport demoAreaAdmin (some demoReport)
        { assignedTo := 9 } (some demoAdmin) 22 = .ok r') ∧
    (∃ r' entry, addAdminComment demoAreaAdmin (some demoReport)
        "Checked on site" 23 = .ok (r', entry)) :=
  claim8_area_check_asymmetry demoAreaAdmin demoReport "Shelbyville"
    { status := .resolved } { assignedTo := 9 } demoAdmin
    "Checked on site" 21 22 23 rfl (by decide) (by decide) rfl rfl rfl
    (by decide)

/-! ### List facts about the upvote set -/

/-- A filter that removes a user nobody voted as leaves the list intact. -/
theorem filter_user_eq_self {l : List Upvote} {uid : Nat}
    (h : l.any (fun v => v.user == uid) = false) :
    l.filter (fun v => v.user != uid) = l := by
  rw [List.filter_eq_self]
  intro x hx
  rw [List.any_eq_false] at h
  simpa [bne] using h x hx

/-- After removing a user's entries, no entry by that user remains. -/
theorem any_filter_user_eq_false (l : List Upvote) (uid : Nat) :
    (l.filter (fun v => v.user != uid)).any (fun v => v.user == uid)
      = false := by
  rw [List.any_eq_false]
  intro x hx
  rw [List.mem_filter] at hx
  intro hc
  simp [bne, hc] at hx

/-- Removing one user's entries does not change any other user's
membership. -/
theorem any_filter_user_ne (l : List Upvote) (uid v : Nat) (hv : v ≠ uid) :
    (l.filter (fun x => x.user != uid)).any (fun x => x.user == v)
      = l.any (fun x => x.user == v) := by
  induction l with
  | nil => rfl
  | cons a t ih =>
    rw [List.filter_cons]
    by_cases ha : a.user = uid
    · have hav : (a.user == v) = false := by
        rw [beq_eq_false_iff_ne]
        intro h
        exact hv (h.symm.trans ha)
      have hbne : (a.user != uid) = false := by simp [bne, ha]
      simp only [hbne, Bool.false_eq_true, if_false, List.any_cons, hav,
        Bool.false_or]
      exact ih
    · have hbne : (a.user != uid) = true := by simp [bne, ha]
      simp only [hbne, if_true, List.any_cons]
      rw [ih]

/-- When the voters are pairwise distinct and a given user is among them,
removing that user's entries drops exactly one element. -/
theorem length_filter_user_of_nodup (l : List Upvote) (uid : Nat)
    (hnd : (l.map (fun v => v.user)).Nodup)
    (hmem : l.any (fun v => v.user == uid) = true) :
    (l.filter (fun v => v.user != uid)).length + 1 = l.length := by
  induction l with
  | nil => simp at hmem
  | cons a t ih =>
    rw [List.map_cons, List.nodup_cons] at hnd
    by_cases ha : a.user = uid
    · have htany : t.any (fun v => v.user == uid) = false := by
        rw [Bool.eq_false_iff]
        intro hc
        rcases List.any_eq_true.1 hc with ⟨x, hx, hxu⟩
        have hxu2 : x.user = uid := by simpa using hxu
        have hm : uid ∈ t.map (fun v => v.user) := by
          rw [← hxu2]
          exact List.mem_map_of_mem (fun v => v.user) hx
        exact hnd.1 (ha ▸ hm)
      have hbne : (a.user != uid) = false := by simp [bne, ha]
      simp only [List.filter_cons, hbne, Bool.false_eq_true, if_false,
        List.length_cons]
      rw [filter_user_eq_self htany]
    · have hbne : (a.user != uid) = true := by simp [bne, ha]
      have hmem2 : t.any (fun v => v.user == uid) = true := by
        rw [List.any_cons] at hmem
        have haf : (a.user == uid) = false := by
          rw [beq_eq_false_iff_ne]
          exact ha
        rw [haf, Bool.false_or] at hmem
        exact hmem
      have := ih hnd.2 hmem2
      simp only [List.filter_cons, hbne, if_true, List.length_cons]
      omega

/-- A vote search over a list with no matching entry finds nothing. -/
theorem find_user_eq_none {l : List Upvote} {uid : Nat}
    (h : l.any (fun v => v.user == uid) = false) :
    l.find? (fun v => v.user == uid) = none := by
  rw [List.find?_eq_none]
  intro x hx
  rw [List.any_eq_false] at h
  exact h x hx

/-- A save that does not touch the status runs the pre-save hook as a
no-op. -/
theorem saveExisting_of_status_eq (persisted doc : Report) (now : Nat)
    (h : doc.status = persisted.status) :
    saveExisting persisted doc now = doc := by
  simp [saveExisting, preSaveStatusHistory, statusIsModified, h]

/-- removeUpvote only filters the vote list (its save is a hook no-op). -/
theorem removeUpvote_eq (r : Report) (uid now : Nat) :
    removeUpvote r uid now =
      { r with upvotes := r.upvotes.filter (fun v => v.user != uid) } := by
  unfold removeUpvote
  exact saveExisting_of_status_eq _ _ _ rfl

/-- addUpvote on a report the user has not voted on appends one vote (its
save is a hook no-op). -/
theorem addUpvote_of_not_voted (r : Report) (uid now : Nat)
    (h : r.upvotes.any (fun v => v.user == uid) = false) :
    addUpvote r uid now =
      { r with upvotes := r.upvotes ++ [{ user := uid, votedAt := now }] } := by
  unfold addUpvote
  rw [find_user_eq_none h]
  exact saveExisting_of_status_eq _ _ _ rfl

/-- C7 (confirmed): two consecutive upvote toggles by the same user (no
interleaving writes, voters pairwise distinct as the toggle endpoint itself
maintains) restore the report's upvote count and per-user membership, the
second response reports the original count, and the two result flags are
negations of each other. -/
theorem claim7_double_toggle (user : User) (report : Report) (t1 t2 : Nat)
    (r1 r2 : Report) (f1 f2 : Bool) (c1 c2 : Nat)
    (hnd : (report.upvotes.map (fun v => v.user)).Nodup)
    (h1 : toggleUpvote user (some report) t1 = .ok (r1, f1, c1))
    (h2 : toggleUpvote user (some r1) t2 = .ok (r2, f2, c2)) :
    r2.upvotes.length = report.upvotes.length ∧
    c2 = report.upvotes.length ∧
    f1 = !f2 ∧
    (∀ v, r2.upvotes.any (fun x => x.user == v) =
          report.upvotes.any (fun x => x.user == v)) := by
  simp only [toggleUpvote] at h1 h2
  by_cases hA : report.upvotes.any (fun v => v.user == user.id) = true
  · -- the user had voted: the first call removes, the second adds back
    rw [hA] at h1
    simp only [if_true, Except.ok.injEq, Prod.mk.injEq] at h1
    obtain ⟨hr1, hf1, -⟩ := h1
    have hany1 : r1.upvotes.any (fun v => v.user == user.id) = false := by
      rw [← hr1, removeUpvote_eq]
      exact any_filter_user_eq_false report.upvotes user.id
    rw [hany1] at h2
    simp only [Bool.false_eq_true, if_false, Except.ok.injEq,
      Prod.mk.injEq] at h2
    obtain ⟨hr2, hf2, hc2⟩ := h2
    have hadd : r2 = { r1 with upvotes :=
        r1.upvotes ++ [{ user := user.id, votedAt := t2 }] } := by
      rw [← hr2, addUpvote_of_not_voted r1 user.id t2 hany1]
    have hup1 : r1.upvotes =
        report.upvotes.filter (fun v => v.user != user.id) := by
      rw [← hr1, removeUpvote_eq]
    have hlen : r1.upvotes.length + 1 = report.upvotes.length := by
      rw [hup1]
      exact length_filter_user_of_nodup report.upvotes user.id hnd hA
    have hup2 : r2.upvotes =
        report.upvotes.filter (fun v => v.user != user.id) ++
          [{ user := user.id, votedAt := t2 }] := by
      rw [hadd, ← hup1]
    refine ⟨?_, ?_, ?_, ?_⟩
    · rw [hup2, List.length_append, ← hup1]
      simpa using hlen
    · rw [← hc2, hr2, hup2, List.length_append, ← hup1]
      simpa using hlen
    · rw [← hf1, ← hf2]
      rfl
    · intro v
      rw [hup2, List.any_append]
      by_cases hv : v = user.id
      · subst hv
        rw [hA]
        simp
      · have hne : (({ user := user.id, votedAt := t2 } : Upvote).user == v)
            = false := by
          rw [beq_eq_false_iff_ne]
          exact fun hc => hv hc.symm
        simp only [List.any_cons, List.any_nil, hne, Bool.or_false]
        exact any_filter_user_ne report.upvotes user.id v hv
  · -- the user had not voted: the first call adds, the second removes
    rw [Bool.not_eq_true] at hA
    rw [hA] at h1
    simp only [Bool.false_eq_true, if_false, Except.ok.injEq,
      Prod.mk.injEq] at h1
    obtain ⟨hr1, hf1, -⟩ := h1
    have hup1 : r1.upvotes =
        report.upvotes ++ [{ user := user.id, votedAt := t1 }] := by
      rw [← hr1, addUpvote_of_not_voted report user.id t1 hA]
    have hany1 : r1.upvotes.any (fun v => v.user == user.id) = true := by
      rw [hup1, List.any_append]
      simp
    rw [hany1] at h2
    simp only [if_true, Except.ok.injEq, Prod.mk.injEq] at h2
    obtain ⟨hr2, hf2, hc2⟩ := h2
    have hup2 : r2.upvotes = report.upvotes := by
      rw [← hr2, removeUpvote_eq]
      show (r1.upvotes.filter _) = _
      rw [hup1, List.filter_append, filter_user_eq_self hA]
      simp [bne]
    refine ⟨?_, ?_, ?_, ?_⟩
    · rw [hup2]
    · rw [← hc2, hr2, hup2]
    · rw [← hf1, ← hf2]
      rfl
    · intro v
      rw [hup2]

/-- The demo report with one existing upvote by user 1. -/
def demoVotedReport : Report :=
  { demoReport with upvotes := [{ user := 1, votedAt := 3 }] }

/-- First concrete toggle call (by the voter, so it removes). -/
def demoToggle1 : Report × Bool × Nat :=
  match toggleUpvote demoActiveUser (some demoVotedReport) 11 with
  | .ok p => p
  | .error _ => (demoVotedReport, false, 0)

/-- Second concrete toggle call (adds the vote back). -/
def demoToggle2 : Report × Bool × Nat :=
  match toggleUpvote demoActiveUser (some demoToggle1.1) 12 with
  | .ok p => p
  | .error _ => (demoVotedReport, false, 0)

/-- C7 witness: the double-toggle law applied to the concrete voted report
(membership instantiated at user 1). -/
theorem claim7_witness :
    demoToggle2.1.upvotes.length = demoVotedReport.upvotes.length ∧
    demoToggle2.2.2 = demoVotedReport.upvotes.length ∧
    demoToggle1.2.1 = !demoToggle2.2.1 ∧
    demoToggle2.1.upvotes.any (fun x => x.user == 1) =
      demoVotedReport.upvotes.any (fun x => x.user == 1) := by
  have h := claim7_double_toggle demoActiveUser demoVotedReport 11 12
    demoToggle1.1 demoToggle2.1 demoToggle1.2.1 demoToggle2.2.1
    demoToggle1.2.2 demoToggle2.2.2 (by decide) rfl rfl
  exact ⟨h.1, h.2.1, h.2.2.1, h.2.2.2 1⟩

end LocalLens
